import Mathlib

/-!
Verification development for the iars client library.

The definitions below are a shallow embedding of the request/response
protocol layer of the library: the header model (src/headers.rs), the
credential loader and error types (src/lib.rs, src/tasks.rs), and the
task-search subsystem (src/tasks/search.rs).  Machine integers `usize`
and `isize` are modelled as `Nat` and `Int` (no operation in the
embedded code can overflow), Rust `HashMap` values are modelled as
association lists with replace-on-insert semantics, and JSON response
bodies are modelled as an inductive `Json` value type.  Serde-derived
deserializers are translated field by field: a required field that is
missing or ill-typed fails the whole decode, a duplicated known field
fails the decode, unknown fields are ignored, `Option` fields treat a
missing field or a JSON null as `none`, and a `serde(default)` vector
field treats a missing field as the empty list.
-/

/-- JSON values, as produced by parsing a response body. Numbers are
modelled as integers; no decoded field of this library is fractional. -/
inductive Json where
  | null
  | bool (b : Bool)
  | num (n : Int)
  | str (s : String)
  | arr (elems : List Json)
  | obj (entries : List (String × Json))

/-- Association-list insert with the semantics of HashMap insert:
replace the value in place when the key is present, append otherwise. -/
def insertKV : List (String × String) → String → String → List (String × String)
  | [], k, v => [(k, v)]
  | (k', v') :: rest, k, v =>
    if k' = k then (k, v) :: rest else (k', v') :: insertKV rest k v

/-- Association-list lookup (first occurrence). -/
def lookupKV : List (String × String) → String → Option String
  | [], _ => none
  | (k', v') :: rest, k => if k' = k then some v' else lookupKV rest k

/-- First occurrence of a field in a JSON object body. -/
def getField : List (String × Json) → String → Option Json
  | [], _ => none
  | (k, v) :: rest, key => if k = key then some v else getField rest key

/-- Number of occurrences of a field name in a JSON object body. -/
def countKey (entries : List (String × Json)) (key : String) : Nat :=
  entries.countP (fun p => p.1 == key)

/-- Serde-derived struct deserializers reject an input object that
repeats a known field name ("duplicate field"); unknown fields may
repeat freely.  This predicate checks the known names. -/
def noDupField (entries : List (String × Json)) (keys : List String) : Bool :=
  keys.all (fun k => decide (countKey entries k ≤ 1))

def Json.asBool : Json → Option Bool
  | .bool b => some b
  | _ => none

def Json.asStr : Json → Option String
  | .str s => some s
  | _ => none

/-- Decode a `usize` field: a non-negative integer JSON number. -/
def Json.asUsize : Json → Option Nat
  | .num n => if n < 0 then none else some n.toNat
  | _ => none

/-- Decode an `isize` field: any integer JSON number. -/
def Json.asIsize : Json → Option Int
  | .num n => some n
  | _ => none

/-- Decode an `Option` field per serde: absent field and JSON null are
`none`; any other value must decode with the inner decoder. -/
def decodeOptField {α : Type} (entries : List (String × Json)) (key : String)
    (dec : Json → Option α) : Option (Option α) :=
  match getField entries key with
  | none => some none
  | some Json.null => some none
  | some v => (dec v).map some

/-- Decode a `Vec` field carrying `serde(default)`: absent field is the
empty list; a present field must be a JSON array whose every element
decodes. -/
def decodeVecField {α : Type} (entries : List (String × Json)) (key : String)
    (dec : Json → Option α) : Option (List α) :=
  match getField entries key with
  | none => some []
  | some (Json.arr xs) => xs.mapM dec
  | some _ => none

/-- Decode a `HashMap<String, String>` field: a JSON object whose values
are all strings; repeated keys overwrite (HashMap insert semantics). -/
def decodeStrMap : Json → Option (List (String × String))
  | Json.obj entries =>
    entries.foldl
      (fun acc p =>
        match acc, p.2 with
        | some m, Json.str s => some (insertKV m p.1 s)
        | _, _ => none)
      (some [])
  | _ => none

/-- Task status, from src/tasks.rs (`Status`). -/
inductive Status where
  | Queued
  | Running
  | Error
  | Paused
deriving DecidableEq

/-- Serde rename tags of `Status`: an all-unit-variant enum deserializes
from its variant name string. -/
def Status.decode : Json → Option Status
  | Json.str "queued" => some .Queued
  | Json.str "running" => some .Running
  | Json.str "error" => some .Error
  | Json.str "paused" => some .Paused
  | _ => none

/-- The wait_admin code of a status (src/tasks.rs, `Status::wait_admin`). -/
def Status.wait_admin : Status → Nat
  | .Queued => 0
  | .Running => 1
  | .Error => 2
  | .Paused => 9

/-- The Display rendering of a status (src/tasks.rs): the wait_admin
integer, formatted. -/
def Status.displayStr : Status → String
  | .Queued => toString (0 : Nat)
  | .Running => toString (1 : Nat)
  | .Error => toString (2 : Nat)
  | .Paused => toString (9 : Nat)

/-- Aggregate counts of active tasks (src/tasks/search.rs, `Summary`). -/
structure Summary where
  queued : Nat
  running : Nat
  error : Nat
  paused : Nat
deriving DecidableEq

/-- Serde-derived decoder for `Summary`: all four fields required. -/
def Summary.decode : Json → Option Summary
  | Json.obj entries =>
    if noDupField entries ["queued", "running", "error", "paused"] then
      match (getField entries "queued").bind Json.asUsize,
            (getField entries "running").bind Json.asUsize,
            (getField entries "error").bind Json.asUsize,
            (getField entries "paused").bind Json.asUsize with
      | some q, some r, some e, some p => some ⟨q, r, e, p⟩
      | _, _, _, _ => none
    else none
  | _ => none

/-- One active task (src/tasks/search.rs, `CatalogEntry`). -/
structure CatalogEntry where
  args : List (String × String)
  cmd : String
  identifier : String
  priority : Int
  server : Option String
  status : Status
  submitter : String
  submit_time : String
  task_id : Nat
deriving DecidableEq

/-- Serde-derived decoder for `CatalogEntry`; `submit_time` is renamed
to the wire field `submittime`, `server` is optional. -/
def CatalogEntry.decode : Json → Option CatalogEntry
  | Json.obj entries =>
    if noDupField entries
        ["args", "cmd", "identifier", "priority", "server", "status",
         "submitter", "submittime", "task_id"] then
      match (getField entries "args").bind decodeStrMap,
            (getField entries "cmd").bind Json.asStr,
            (getField entries "identifier").bind Json.asStr,
            (getField entries "priority").bind Json.asIsize,
            decodeOptField entries "server" Json.asStr,
            (getField entries "status").bind Status.decode,
            (getField entries "submitter").bind Json.asStr,
            (getField entries "submittime").bind Json.asStr,
            (getField entries "task_id").bind Json.asUsize with
      | some args, some cmd, some ident, some pri, some server, some status,
        some sub, some stime, some tid =>
        some ⟨args, cmd, ident, pri, server, status, sub, stime, tid⟩
      | _, _, _, _, _, _, _, _, _ => none
    else none
  | _ => none

/-- One completed task (src/tasks/search.rs, `HistoryEntry`). -/
structure HistoryEntry where
  args : List (String × String)
  cmd : String
  finished : Nat
  identifier : String
  priority : Int
  server : String
  submitter : String
  submit_time : String
  task_id : Nat
deriving DecidableEq

/-- Serde-derived decoder for `HistoryEntry`; all fields required,
`server` mandatory here unlike in the catalog. -/
def HistoryEntry.decode : Json → Option HistoryEntry
  | Json.obj entries =>
    if noDupField entries
        ["args", "cmd", "finished", "identifier", "priority", "server",
         "submitter", "submittime", "task_id"] then
      match (getField entries "args").bind decodeStrMap,
            (getField entries "cmd").bind Json.asStr,
            (getField entries "finished").bind Json.asUsize,
            (getField entries "identifier").bind Json.asStr,
            (getField entries "priority").bind Json.asIsize,
            (getField entries "server").bind Json.asStr,
            (getField entries "submitter").bind Json.asStr,
            (getField entries "submittime").bind Json.asStr,
            (getField entries "task_id").bind Json.asUsize with
      | some args, some cmd, some fin, some ident, some pri, some server,
        some sub, some stime, some tid =>
        some ⟨args, cmd, fin, ident, pri, server, sub, stime, tid⟩
      | _, _, _, _, _, _, _, _, _ => none
    else none
  | _ => none

/-- Inner payload of the search response (src/tasks/search.rs,
`InnerValue`): catalog and history default to empty when missing,
summary and cursor are optional. -/
structure InnerValue where
  catalog : List CatalogEntry
  history : List HistoryEntry
  summary : Option Summary
  cursor : Option String
deriving DecidableEq

/-- The derived `Default` of `InnerValue`: empty vectors, absent options. -/
def InnerValue.defaultVal : InnerValue := ⟨[], [], none, none⟩

/-- Serde-derived strict decoder for `InnerValue`. -/
def InnerValue.decode : Json → Option InnerValue
  | Json.obj entries =>
    if noDupField entries ["catalog", "history", "summary", "cursor"] then
      match decodeVecField entries "catalog" CatalogEntry.decode,
            decodeVecField entries "history" HistoryEntry.decode,
            decodeOptField entries "summary" Summary.decode,
            decodeOptField entries "cursor" Json.asStr with
      | some c, some h, some s, some cur => some ⟨c, h, s, cur⟩
      | _, _, _, _ => none
    else none
  | _ => none

/-- The fallback wrapper `InnerValue::try_deserialize` from
src/tasks/search.rs: any decode failure of the inner value is replaced
by the all-defaults value, so this function is total. -/
def InnerValue.try_deserialize (j : Json) : InnerValue :=
  (InnerValue.decode j).getD InnerValue.defaultVal

/-- Outer envelope of the search response (src/tasks/search.rs,
`InterimResponse`): a `success` boolean plus a `value` member decoded
through `InnerValue.try_deserialize`. -/
structure InterimResponse where
  success : Bool
  value : InnerValue
deriving DecidableEq

/-- Envelope-level part of the derived `InterimResponse` deserializer:
the body must be an object with no duplicated known field, carrying a
boolean `success` and a present `value` member; the raw `value` JSON is
returned for the field-level fallback decoder to consume. -/
def decodeEnvelope : Json → Option (Bool × Json)
  | Json.obj entries =>
    if noDupField entries ["success", "value"] then
      match (getField entries "success").bind Json.asBool,
            getField entries "value" with
      | some s, some v => some (s, v)
      | _, _ => none
    else none
  | _ => none

/-- Full decoder for `InterimResponse`: envelope decoding followed by
the total fallback decoding of the inner value. -/
def InterimResponse.decode (j : Json) : Option InterimResponse :=
  (decodeEnvelope j).map (fun p => ⟨p.1, InnerValue.try_deserialize p.2⟩)

/-- Search response surfaced to callers (src/tasks/search.rs,
`Response`). -/
structure Response where
  success : Bool
  catalog : List CatalogEntry
  history : List HistoryEntry
  summary : Option Summary
  cursor : Option String
deriving DecidableEq

/-- The `From<InterimResponse> for Response` conversion: flatten the
inner value into the response record. -/
def Response.ofInterim (resp : InterimResponse) : Response :=
  ⟨resp.success, resp.value.catalog, resp.value.history,
   resp.value.summary, resp.value.cursor⟩

/-- Decoding a response body into a `Response`, per the
`serde(from = "InterimResponse")` attribute on `Response`. -/
def Response.decode (j : Json) : Option Response :=
  (InterimResponse.decode j).map Response.ofInterim

example : Response.decode (Json.obj [("success", Json.bool true), ("value", Json.arr [])])
    = some ⟨true, [], [], none, none⟩ := by decide

example : Response.decode (Json.obj []) = none := by decide

/-- Request headers (src/headers.rs, `Header`). -/
inductive Header where
  | ContentLength (val : Nat)
  | Authorization (access : String) (secret : String)
  | ContentType (val : String)
  | ContentMd5 (val : String)
  | XAutoMakeBucket (val : Bool)
  | XCascadeDelete (val : Bool)
  | XIgnorePreexistingBucket (val : Bool)
  | XKeepOldVersion (val : Bool)
  | XMeta (name : String) (value : String)
  | XQueueDerive (val : Bool)
  | XSizeHint (val : Nat)
  | Custom (key : String) (value : String)
deriving DecidableEq

/-- The single wire (name, value) pair a header renders to, per the
match in `RequestHeaderExt::set_header` (src/headers.rs).  Rust casts a
boolean flag to `u8` and formats it, producing "1" or "0". -/
def Header.render : Header → String × String
  | .ContentLength val => ("content-length", toString val)
  | .Authorization access secret => ("authorization", "LOW " ++ access ++ ":" ++ secret)
  | .ContentType val => ("content-type", val)
  | .ContentMd5 val => ("content-md5", val)
  | .XAutoMakeBucket val => ("x-amz-auto-make-bucket", toString (cond val (1 : Nat) 0))
  | .XCascadeDelete val => ("x-archive-cascade-delete", toString (cond val (1 : Nat) 0))
  | .XIgnorePreexistingBucket val => ("x-archive-ignore-preexisting-bucket", toString (cond val (1 : Nat) 0))
  | .XKeepOldVersion val => ("x-archive-keep-old-version", toString (cond val (1 : Nat) 0))
  | .XMeta name value => ("x-archive-meta-" ++ name, value)
  | .XQueueDerive val => ("x-archive-queue-derive", toString (cond val (1 : Nat) 0))
  | .XSizeHint val => ("x-archive-size-hint", toString val)
  | .Custom key value => (key, value)

/-- Model of an in-flight ureq request builder: method, URL, accumulated
query parameters (ureq appends every `query` call) and headers (ureq
`set` replaces a header of the same name). -/
structure UreqReq where
  method : String
  url : String
  queries : List (String × String)
  headers : List (String × String)
deriving DecidableEq

/-- Model of `ureq::get`. -/
def ureqGet (url : String) : UreqReq := ⟨"GET", url, [], []⟩

/-- Model of `ureq::Request::set`. -/
def UreqReq.set (r : UreqReq) (k v : String) : UreqReq :=
  { r with headers := insertKV r.headers k v }

/-- Model of `ureq::Request::query`: appends one query parameter. -/
def UreqReq.query (r : UreqReq) (k v : String) : UreqReq :=
  { r with queries := r.queries ++ [(k, v)] }

/-- Model of `ureq::Request::query_pairs`: appends each pair in order. -/
def UreqReq.query_pairs (r : UreqReq) (l : List (String × String)) : UreqReq :=
  { r with queries := r.queries ++ l }

/-- The `RequestHeaderExt::set_header` extension (src/headers.rs):
attach exactly the one rendered pair of the header. -/
def UreqReq.set_header (r : UreqReq) (hd : Header) : UreqReq :=
  r.set (Header.render hd).1 (Header.render hd).2

/-- Access and secret key pair (src/lib.rs, `Credentials`). -/
structure Credentials where
  access : String
  secret : String
deriving DecidableEq

/-- The `From<&Credentials> for Header` conversion (src/lib.rs). -/
def Credentials.toHeader (c : Credentials) : Header :=
  Header.Authorization c.access c.secret

/-- The loader `Credentials::try_from_env` (src/lib.rs).  The process
environment is modelled as a lookup function; `none` covers an unset
variable and any other read failure (the Rust code discards every
`VarError` with `.ok()?`).  Both values must be non-empty. -/
def Credentials.try_from_env (env : String → Option String) : Option Credentials :=
  match env "AWS_ACCESS_KEY_ID" with
  | none => none
  | some access =>
    match env "AWS_SECRET_ACCESS_KEY" with
    | none => none
    | some secret =>
      if access.isEmpty || secret.isEmpty then none
      else some ⟨access, secret⟩

/-- Opaque local I/O error payload (models `std::io::Error`, which this
layer never inspects). -/
inductive IoError where
  | err
deriving DecidableEq

/-- An HTTP response as seen by this layer: a status code and a body.
The body is carried as `some` parsed JSON value, or `none` when the
body text is not valid JSON at all. -/
structure HttpResp where
  status : Nat
  body : Option Json

/-- Model of `ureq::Error`: a completed call with an error status code,
or a transport-level failure. -/
inductive UreqError where
  | status (code : Nat) (resp : HttpResp)
  | transport (msg : String)

/-- Error type of the tasks module (src/tasks.rs, `TaskError`).  The
constructor `IoErr` models the variant `TaskError::Io`, which carries a
`std::io::Error` and is produced both by local I/O failures and by a
response body that fails to deserialize. -/
inductive TaskError where
  | IoErr (e : IoError)
  | Ureq (e : UreqError)
  | Forbidden (resp : HttpResp)

/-- The `From<std::io::Error> for TaskError` conversion (src/tasks.rs):
every local I/O error becomes the `Io` variant. -/
def TaskError.fromIoError (e : IoError) : TaskError := TaskError.IoErr e

/-- The `From<ureq::Error> for TaskError` conversion (src/tasks.rs):
a 403 status becomes `Forbidden` carrying the response, every other
error is passed through as the `Ureq` variant. -/
def TaskError.fromUreq : UreqError → TaskError
  | .status code resp =>
    if code = 403 then .Forbidden resp else .Ureq (.status code resp)
  | .transport msg => .Ureq (.transport msg)

/-- Error type of the item module (src/lib.rs, `ItemError`). -/
inductive ItemError where
  | Ureq (e : UreqError)
  | Forbidden (resp : HttpResp)
  | InvalidIdentifier (ident : String)

/-- The `From<ureq::Error> for ItemError` conversion (src/lib.rs): the
same 403 special case as for `TaskError`. -/
def ItemError.fromUreq : UreqError → ItemError
  | .status code resp =>
    if code = 403 then .Forbidden resp else .Ureq (.status code resp)
  | .transport msg => .Ureq (.transport msg)

/-- The default User-Agent string (src/lib.rs). -/
def DEFAULT_USER_AGENT : String := "iars <https://crates.io/crates/iars>"


namespace search

/-- Search filters (src/tasks/search.rs, `Filter`). -/
inductive Filter where
  | Identifier (val : String)
  | TaskId (val : Nat)
  | Server (val : String)
  | Command (val : String)
  | Submitter (val : String)
  | Priority (val : Int)
  | State (val : Status)
  | SubmitTimeGt (val : String)
  | SubmitTimeLt (val : String)
  | SubmitTimeGte (val : String)
  | SubmitTimeLte (val : String)
deriving DecidableEq

/-- The wire query key/value pair of a filter, per the match inside
`Request::with_filter` (src/tasks/search.rs). -/
def Filter.wirePair : Filter → String × String
  | .Identifier val => ("identifier", val)
  | .TaskId val => ("task_id", toString val)
  | .Server val => ("server", val)
  | .Command val => ("cmd", val)
  | .Submitter val => ("submitter", val)
  | .Priority val => ("priority", toString val)
  | .State val => ("wait_admin", val.displayStr)
  | .SubmitTimeGt val => ("submittime>", val)
  | .SubmitTimeLt val => ("submittime<", val)
  | .SubmitTimeGte val => ("submittime>=", val)
  | .SubmitTimeLte val => ("submittime<=", val)

/-- Two filters are of the same variant kind when they are built by the
same constructor, payloads aside. -/
def Filter.sameKind : Filter → Filter → Bool
  | .Identifier _, .Identifier _ => true
  | .TaskId _, .TaskId _ => true
  | .Server _, .Server _ => true
  | .Command _, .Command _ => true
  | .Submitter _, .Submitter _ => true
  | .Priority _, .Priority _ => true
  | .State _, .State _ => true
  | .SubmitTimeGt _, .SubmitTimeGt _ => true
  | .SubmitTimeLt _, .SubmitTimeLt _ => true
  | .SubmitTimeGte _, .SubmitTimeGte _ => true
  | .SubmitTimeLte _, .SubmitTimeLte _ => true
  | _, _ => false

/-- Task search request builder (src/tasks/search.rs, `Request`).  The
`filters` HashMap is modelled as an association list with
replace-on-insert semantics. -/
structure Request where
  credentials : Option Credentials
  useragent : String
  filters : List (String × String)
  summary : Bool
  catalog : Bool
  history : Bool
  limit : Nat
deriving DecidableEq

/-- The `Default` implementation of `Request` (src/tasks/search.rs). -/
def Request.defaultVal : Request :=
  ⟨none, DEFAULT_USER_AGENT, [], true, false, false, 50⟩

/-- `Request::new` delegates to the default. -/
def Request.new : Request := Request.defaultVal

/-- `Request::with_credentials` (src/tasks/search.rs). -/
def Request.with_credentials (r : Request) (credentials : Option Credentials) : Request :=
  { r with credentials := credentials }

/-- `Request::with_useragent` (src/tasks/search.rs): an absent or empty
string falls back to the default. -/
def Request.with_useragent (r : Request) (useragent : Option String) : Request :=
  match useragent with
  | none => { r with useragent := DEFAULT_USER_AGENT }
  | some s =>
    if s.isEmpty then { r with useragent := DEFAULT_USER_AGENT }
    else { r with useragent := s }

/-- `Request::with_categories` (src/tasks/search.rs). -/
def Request.with_categories (r : Request) (summary catalog history : Bool) : Request :=
  { r with summary := summary, catalog := catalog, history := history }

/-- `Request::with_limit` (src/tasks/search.rs): the stored limit is
`min(limit, 500)`. -/
def Request.with_limit (r : Request) (limit : Nat) : Request :=
  { r with limit := min limit 500 }

/-- `Request::with_filter` (src/tasks/search.rs): insert the wire pair
of the filter into the filter mapping. -/
def Request.with_filter (r : Request) (f : Filter) : Request :=
  { r with filters := insertKV r.filters f.wirePair.1 f.wirePair.2 }

/-- The request built by `Request::call` (src/tasks/search.rs) before it
is executed: a GET with the filter pairs, the three category toggles
cast to integers, the stored limit, the optional cursor, and the
optional authorization header. -/
def Request.buildCall (r : Request) (cursor : Option String) : UreqReq :=
  let req0 :=
    ((((((ureqGet "https://archive.org/services/tasks.php").set
      "user-agent" r.useragent).query_pairs
      r.filters).query
      "summary" (toString (cond r.summary (1 : Nat) 0))).query
      "catalog" (toString (cond r.catalog (1 : Nat) 0))).query
      "history" (toString (cond r.history (1 : Nat) 0))).query
      "limit" (toString r.limit)
  let req1 :=
    match cursor with
    | some c => req0.query "cursor" c
    | none => req0
  match r.credentials with
  | some creds => req1.set_header (Credentials.toHeader creds)
  | none => req1

/-- Model of `resp.into_json::<Response>()` in `Request::call`: a body
that is not valid JSON, or a JSON body the `Response` deserializer
rejects, yields an `std::io::Error`. -/
def intoJsonResp (resp : HttpResp) : Except IoError Response :=
  match resp.body with
  | none => Except.error IoError.err
  | some j =>
    match Response.decode j with
    | none => Except.error IoError.err
    | some r => Except.ok r

/-- Result handling of `Request::call` (src/tasks/search.rs), namely
the line `Ok(req.call()?.into_json()?)`: a transport-level error is
classified through `TaskError.fromUreq`, a body decode failure through
`TaskError.fromIoError`, and a decoded body is returned as is. -/
def callClassify (transport : Except UreqError HttpResp) : Except TaskError Response :=
  match transport with
  | Except.error e => Except.error (TaskError.fromUreq e)
  | Except.ok resp =>
    match intoJsonResp resp with
    | Except.error e => Except.error (TaskError.fromIoError e)
    | Except.ok r => Except.ok r

end search

/-! Helper lemmas about the association-list operations and the built
request, shared by the claim theorems below. -/

theorem insertKV_insertKV_same (l : List (String × String)) (k v1 v2 : String) :
    insertKV (insertKV l k v1) k v2 = insertKV l k v2 := by
  induction l with
  | nil => simp [insertKV]
  | cons p rest ih =>
    obtain ⟨k', v'⟩ := p
    by_cases h : k' = k
    · simp [insertKV, h]
    · simp [insertKV, h, ih]

theorem lookupKV_insertKV_self (l : List (String × String)) (k v : String) :
    lookupKV (insertKV l k v) k = some v := by
  induction l with
  | nil => simp [insertKV, lookupKV]
  | cons p rest ih =>
    obtain ⟨k', v'⟩ := p
    by_cases h : k' = k
    · simp [insertKV, h, lookupKV]
    · simp [insertKV, h, lookupKV, ih]

theorem lookupKV_insertKV_ne (l : List (String × String)) (k k' v : String)
    (h : k' ≠ k) : lookupKV (insertKV l k v) k' = lookupKV l k' := by
  induction l with
  | nil => simp [insertKV, lookupKV, Ne.symm h]
  | cons p rest ih =>
    obtain ⟨k0, v0⟩ := p
    by_cases h0 : k0 = k
    · subst h0
      simp [insertKV, lookupKV, Ne.symm h]
    · simp [insertKV, h0, lookupKV, ih]

theorem search.Filter.sameKind_iff (f1 f2 : search.Filter) :
    f1.sameKind f2 = true ↔ f1.wirePair.1 = f2.wirePair.1 := by
  cases f1 <;> cases f2 <;>
    simp [search.Filter.sameKind, search.Filter.wirePair]

theorem toString_cond_bool (b : Bool) :
    toString (cond b (1 : Nat) 0) = if b then "1" else "0" := by
  cases b <;> rfl

theorem search.Request.buildCall_queries (r : search.Request) (cursor : Option String) :
    (r.buildCall cursor).queries =
      r.filters
        ++ [("summary", toString (cond r.summary (1 : Nat) 0)),
            ("catalog", toString (cond r.catalog (1 : Nat) 0)),
            ("history", toString (cond r.history (1 : Nat) 0)),
            ("limit", toString r.limit)]
        ++ (match cursor with
            | some c => [("cursor", c)]
            | none => []) := by
  obtain ⟨creds, ua, fs, s, c, h, lim⟩ := r
  cases cursor <;> cases creds <;>
    simp [search.Request.buildCall, UreqReq.query, UreqReq.query_pairs,
      UreqReq.set, UreqReq.set_header, ureqGet]

theorem search.Request.buildCall_method (r : search.Request) (cursor : Option String) :
    (r.buildCall cursor).method = "GET" := by
  obtain ⟨creds, ua, fs, s, c, h, lim⟩ := r
  cases cursor <;> cases creds <;>
    simp [search.Request.buildCall, UreqReq.query, UreqReq.query_pairs,
      UreqReq.set, UreqReq.set_header, ureqGet]

/-! Claim theorems. -/

/-- Claim C7: every Header value renders to exactly one wire (name,
value) pair — attaching any header to a fresh request yields exactly one
header line — and every boolean-flag variant (auto-make-bucket,
cascade-delete, ignore-preexisting-bucket, keep-old-version,
queue-derive) renders "1" for true and "0" for false. -/
theorem c7_header_render (u : String) (hd : Header) (b : Bool) :
    ((ureqGet u).set_header hd).headers.length = 1 ∧
    Header.render (Header.XAutoMakeBucket b)
      = ("x-amz-auto-make-bucket", if b then "1" else "0") ∧
    Header.render (Header.XCascadeDelete b)
      = ("x-archive-cascade-delete", if b then "1" else "0") ∧
    Header.render (Header.XIgnorePreexistingBucket b)
      = ("x-archive-ignore-preexisting-bucket", if b then "1" else "0") ∧
    Header.render (Header.XKeepOldVersion b)
      = ("x-archive-keep-old-version", if b then "1" else "0") ∧
    Header.render (Header.XQueueDerive b)
      = ("x-archive-queue-derive", if b then "1" else "0") := by
  refine ⟨rfl, ?_, ?_, ?_, ?_, ?_⟩ <;> cases b <;> rfl

/-- Claim C8: converting any Credentials value into a Header produces
the Authorization variant with the same access and secret strings, and
that header renders to the fixed literal scheme prefix followed by
access:secret. -/
theorem c8_credentials_to_header (c : Credentials) :
    Credentials.toHeader c = Header.Authorization c.access c.secret ∧
    Header.render (Credentials.toHeader c)
      = ("authorization", "LOW " ++ c.access ++ ":" ++ c.secret) :=
  ⟨rfl, rfl⟩

/-- Claim C9: loading credentials from the environment returns the
exact variable values when both well-known variables are set and
non-empty, and returns none — never a hard failure — when either
variable is unset (or otherwise unreadable, which the model folds into
the absent case) or empty. -/
theorem c9_env_loading (env : String → Option String) (a s : String) :
    (env "AWS_ACCESS_KEY_ID" = some a → env "AWS_SECRET_ACCESS_KEY" = some s →
      a ≠ "" → s ≠ "" → Credentials.try_from_env env = some ⟨a, s⟩) ∧
    (env "AWS_ACCESS_KEY_ID" = none → Credentials.try_from_env env = none) ∧
    (env "AWS_SECRET_ACCESS_KEY" = none → Credentials.try_from_env env = none) ∧
    (env "AWS_ACCESS_KEY_ID" = some "" → Credentials.try_from_env env = none) ∧
    (env "AWS_SECRET_ACCESS_KEY" = some "" → Credentials.try_from_env env = none) := by
  unfold Credentials.try_from_env
  refine ⟨?_, ?_, ?_, ?_, ?_⟩
  · intro ha hs hane hsne
    simp [ha, hs, String.isEmpty_iff, hane, hsne]
  · intro h
    simp [h]
  · intro h
    cases ha : env "AWS_ACCESS_KEY_ID" <;> simp [ha, h]
  · intro h
    cases hs : env "AWS_SECRET_ACCESS_KEY" <;> simp [h, hs, String.isEmpty_iff]
  · intro h
    cases ha : env "AWS_ACCESS_KEY_ID" <;> simp [ha, h, String.isEmpty_iff]

/-- Witness for C9 at concrete environments: both variables set and
non-empty yields the exact pair; a missing secret yields none. -/
theorem c9_env_loading_witness :
    Credentials.try_from_env (fun k =>
      if k = "AWS_ACCESS_KEY_ID" then some "AKID" else
      if k = "AWS_SECRET_ACCESS_KEY" then some "SEKRET" else none)
      = some ⟨"AKID", "SEKRET"⟩ ∧
    Credentials.try_from_env (fun k =>
      if k = "AWS_ACCESS_KEY_ID" then some "AKID" else none) = none := by
  constructor
  · exact (c9_env_loading _ "AKID" "SEKRET").1 rfl rfl (by decide) (by decide)
  · exact (c9_env_loading _ "" "").2.2.1 rfl

/-- Claim C5: a completed HTTP call with status 403 is classified as the
Forbidden variant regardless of the response body, and every other
status or transport error becomes the generic Ureq variant — in both
the task layer and the item layer, and through the call result
handling. -/
theorem c5_forbidden_classification (resp : HttpResp) (code : Nat) (msg : String)
    (hcode : code ≠ 403) :
    TaskError.fromUreq (UreqError.status 403 resp) = TaskError.Forbidden resp ∧
    TaskError.fromUreq (UreqError.status code resp)
      = TaskError.Ureq (UreqError.status code resp) ∧
    TaskError.fromUreq (UreqError.transport msg)
      = TaskError.Ureq (UreqError.transport msg) ∧
    ItemError.fromUreq (UreqError.status 403 resp) = ItemError.Forbidden resp ∧
    ItemError.fromUreq (UreqError.status code resp)
      = ItemError.Ureq (UreqError.status code resp) ∧
    ItemError.fromUreq (UreqError.transport msg)
      = ItemError.Ureq (UreqError.transport msg) ∧
    search.callClassify (Except.error (UreqError.status 403 resp))
      = Except.error (TaskError.Forbidden resp) := by
  refine ⟨?_, ?_, ?_, ?_, ?_, ?_, ?_⟩ <;>
    simp [TaskError.fromUreq, ItemError.fromUreq, search.callClassify, hcode]

/-- Witness for C5 at a concrete 500 status and a concrete 403. -/
theorem c5_forbidden_witness :
    TaskError.fromUreq (UreqError.status 500 ⟨500, none⟩)
      = TaskError.Ureq (UreqError.status 500 ⟨500, none⟩) ∧
    TaskError.fromUreq (UreqError.status 403 ⟨403, some (Json.str "denied")⟩)
      = TaskError.Forbidden ⟨403, some (Json.str "denied")⟩ :=
  ⟨(c5_forbidden_classification ⟨500, none⟩ 500 "x" (by decide)).2.1,
   (c5_forbidden_classification ⟨403, some (Json.str "denied")⟩ 500 "x" (by decide)).1⟩

/-- Claim C2: with_limit stores min(n, 500) immediately at assignment,
and the built call request carries the stored limit verbatim — no
further clamping happens at call time. -/
theorem c2_limit_clamp (r : search.Request) (n : Nat) (cursor : Option String) :
    (r.with_limit n).limit = min n 500 ∧
    ("limit", toString r.limit) ∈ (r.buildCall cursor).queries := by
  constructor
  · rfl
  · rw [search.Request.buildCall_queries]
    simp

/-- Claim C6: every built call request is a GET whose query parameters
are exactly the accumulated filter pairs, the three category toggles
serialized as "1" or "0", the stored limit as a decimal string, and a
cursor parameter present exactly when the cursor argument is some. -/
theorem c6_call_query_params (r : search.Request) (cursor : Option String) :
    (r.buildCall cursor).method = "GET" ∧
    (r.buildCall cursor).queries =
      r.filters
        ++ [("summary", if r.summary then "1" else "0"),
            ("catalog", if r.catalog then "1" else "0"),
            ("history", if r.history then "1" else "0"),
            ("limit", toString r.limit)]
        ++ (match cursor with
            | some c => [("cursor", c)]
            | none => []) := by
  refine ⟨search.Request.buildCall_method r cursor, ?_⟩
  rw [search.Request.buildCall_queries]
  simp [toString_cond_bool]

/-- Claim C3: applying with_filter twice with filters of the same
variant kind leaves only the second payload (last write wins, and the
whole request equals the one built with the second filter alone), while
filters of different variant kinds accumulate: both wire pairs are
present with their own payloads. -/
theorem c3_filter_last_write_wins (r : search.Request) (f1 f2 : search.Filter) :
    (f1.sameKind f2 = true →
      (r.with_filter f1).with_filter f2 = r.with_filter f2) ∧
    (f1.sameKind f2 = false →
      lookupKV ((r.with_filter f1).with_filter f2).filters f2.wirePair.1
          = some f2.wirePair.2 ∧
      lookupKV ((r.with_filter f1).with_filter f2).filters f1.wirePair.1
          = some f1.wirePair.2) := by
  constructor
  · intro hsame
    have hk := (search.Filter.sameKind_iff f1 f2).mp hsame
    simp [search.Request.with_filter, hk, insertKV_insertKV_same]
  · intro hdiff
    have hk : f1.wirePair.1 ≠ f2.wirePair.1 := by
      intro h
      rw [← search.Filter.sameKind_iff] at h
      rw [h] at hdiff
      exact absurd hdiff (by simp)
    constructor
    · simp [search.Request.with_filter, lookupKV_insertKV_self]
    · simp only [search.Request.with_filter]
      rw [lookupKV_insertKV_ne _ _ _ _ hk, lookupKV_insertKV_self]

/-- Witness for C3: two Server filters collapse to the second; a Server
filter and a Command filter accumulate. -/
theorem c3_filter_witness :
    (search.Request.new.with_filter (search.Filter.Server "a")).with_filter
        (search.Filter.Server "b")
      = search.Request.new.with_filter (search.Filter.Server "b") ∧
    lookupKV ((search.Request.new.with_filter (search.Filter.Server "a")).with_filter
        (search.Filter.Command "c")).filters "cmd" = some "c" ∧
    lookupKV ((search.Request.new.with_filter (search.Filter.Server "a")).with_filter
        (search.Filter.Command "c")).filters "server" = some "a" :=
  ⟨(c3_filter_last_write_wins search.Request.new (search.Filter.Server "a")
      (search.Filter.Server "b")).1 rfl,
   ((c3_filter_last_write_wins search.Request.new (search.Filter.Server "a")
      (search.Filter.Command "c")).2 rfl).1,
   ((c3_filter_last_write_wins search.Request.new (search.Filter.Server "a")
      (search.Filter.Command "c")).2 rfl).2⟩

/-- Claim C1: whenever the outer envelope of a search response body
parses (a boolean success and a present value member) but the value
member fails the strict inner decode — for any reason — the whole
decode still succeeds and yields empty catalog, empty history, absent
summary and absent cursor. -/
theorem c1_inner_value_fallback (entries : List (String × Json)) (b : Bool) (v : Json)
    (henv : decodeEnvelope (Json.obj entries) = some (b, v))
    (hfail : InnerValue.decode v = none) :
    Response.decode (Json.obj entries) = some ⟨b, [], [], none, none⟩ := by
  unfold Response.decode InterimResponse.decode
  rw [henv]
  simp [InnerValue.try_deserialize, hfail, InnerValue.defaultVal, Response.ofInterim]

/-- Witness for C1 at the empty-array quirk the server emits in
practice. -/
theorem c1_inner_value_fallback_witness :
    decodeEnvelope (Json.obj [("success", Json.bool true), ("value", Json.arr [])])
      = some (true, Json.arr []) ∧
    InnerValue.decode (Json.arr []) = none ∧
    Response.decode (Json.obj [("success", Json.bool true), ("value", Json.arr [])])
      = some ⟨true, [], [], none, none⟩ :=
  ⟨rfl, rfl,
   c1_inner_value_fallback [("success", Json.bool true), ("value", Json.arr [])]
     true (Json.arr []) rfl rfl⟩

/-- When the envelope of an object body decodes, the decoded success
flag is exactly the boolean success field of the object. -/
theorem decodeEnvelope_obj_success (entries : List (String × Json)) (p : Bool × Json)
    (h : decodeEnvelope (Json.obj entries) = some p) :
    (getField entries "success").bind Json.asBool = some p.1 := by
  simp only [decodeEnvelope] at h
  by_cases hd : noDupField entries ["success", "value"] = true
  · rw [if_pos hd] at h
    rcases hs : (getField entries "success").bind Json.asBool with _ | s <;> rw [hs] at h
    · rcases hv : getField entries "value" with _ | v <;> rw [hv] at h <;> simp at h
    · rcases hv : getField entries "value" with _ | v <;> rw [hv] at h
      · simp at h
      · simp only [Option.some.injEq] at h
        rw [← h]
  · rw [if_neg hd] at h
    exact absurd h (by simp)

/-- A missing or non-boolean success field makes the envelope decode
fail. -/
theorem decodeEnvelope_obj_none (entries : List (String × Json))
    (h : (getField entries "success").bind Json.asBool = none) :
    decodeEnvelope (Json.obj entries) = none := by
  simp only [decodeEnvelope]
  rw [h]
  by_cases hd : noDupField entries ["success", "value"] = true
  · rw [if_pos hd]
  · rw [if_neg hd]

/-- A successfully decoded response whose body is an object carries the
boolean success field of that object. -/
theorem response_decode_success (entries : List (String × Json)) (r : Response)
    (h : Response.decode (Json.obj entries) = some r) :
    (getField entries "success").bind Json.asBool = some r.success := by
  unfold Response.decode InterimResponse.decode at h
  rcases he : decodeEnvelope (Json.obj entries) with _ | p
  · rw [he] at h
    exact absurd h (by simp)
  · rw [he] at h
    simp only [Option.map_some'] at h
    have hs := decodeEnvelope_obj_success entries p he
    rw [hs]
    cases h
    rfl

/-- Claim C10: decoding a task-search response requires a boolean
success field in the outer envelope — a body missing it (the empty
object, or any non-object body) fails the whole decode — while a
successful decode always carries exactly the success flag of the
envelope. -/
theorem c10_success_field_required (entries : List (String × Json)) (r : Response) :
    ((getField entries "success").bind Json.asBool = none →
      Response.decode (Json.obj entries) = none) ∧
    Response.decode (Json.obj []) = none ∧
    (∀ xs, Response.decode (Json.arr xs) = none) ∧
    Response.decode Json.null = none ∧
    (Response.decode (Json.obj entries) = some r →
      (getField entries "success").bind Json.asBool = some r.success) := by
  refine ⟨?_, rfl, fun xs => rfl, rfl, response_decode_success entries r⟩
  intro h
  simp [Response.decode, InterimResponse.decode, decodeEnvelope_obj_none entries h]

/-- Witness for C10: a body with only a value member fails to decode;
the well-formed example body decodes with the success flag of its
envelope. -/
theorem c10_success_field_witness :
    Response.decode (Json.obj [("value", Json.arr [])]) = none ∧
    (getField [("success", Json.bool true), ("value", Json.arr [])] "success").bind
      Json.asBool = some true := by
  constructor
  · exact (c10_success_field_required [("value", Json.arr [])]
      ⟨true, [], [], none, none⟩).1 rfl
  · exact (c10_success_field_required [("success", Json.bool true), ("value", Json.arr [])]
      ⟨true, [], [], none, none⟩).2.2.2.2 rfl

/-- Counterexample to claim C4 as stated: the claim asserts that
envelope-level parse failures surface through a ParseFailure
discriminant distinct from the local-I/O-failure discriminant.  In the
code there is no such distinct discriminant: an undecodable envelope
(here the empty object, which lacks the success field) is classified as
`TaskError.IoErr`, exactly the constructor that the conversion from a
local `std::io::Error` produces. -/
theorem c4_counterexample :
    Response.decode (Json.obj []) = none ∧
    search.callClassify (Except.ok ⟨200, some (Json.obj [])⟩)
      = Except.error (TaskError.fromIoError IoError.err) ∧
    TaskError.fromIoError IoError.err = TaskError.IoErr IoError.err :=
  ⟨rfl, rfl, rfl⟩

/-- Claim C4 as amended: on the task-search surface the body-decode
failure classification (the `Io` variant, shared with local I/O
failures rather than a distinct ParseFailure) occurs exactly when the
outer envelope itself cannot be decoded; a decode failure of the inner
value never surfaces as an error at all. -/
theorem c4_envelope_failures_only (st : Nat) (body : Json) :
    (decodeEnvelope body = none →
      search.callClassify (Except.ok ⟨st, some body⟩)
        = Except.error (TaskError.IoErr IoError.err)) ∧
    (∀ p, decodeEnvelope body = some p →
      search.callClassify (Except.ok ⟨st, some body⟩)
        = Except.ok (Response.ofInterim ⟨p.1, InnerValue.try_deserialize p.2⟩)) := by
  constructor
  · intro h
    simp [search.callClassify, search.intoJsonResp, Response.decode,
      InterimResponse.decode, h, TaskError.fromIoError]
  · intro p h
    simp [search.callClassify, search.intoJsonResp, Response.decode,
      InterimResponse.decode, h]

/-- Witness for the amended C4: a non-object body errors as the Io
variant; a body with an undecodable inner value still succeeds. -/
theorem c4_envelope_failures_witness :
    search.callClassify (Except.ok ⟨200, some (Json.arr [])⟩)
      = Except.error (TaskError.IoErr IoError.err) ∧
    search.callClassify
        (Except.ok ⟨200, some (Json.obj [("success", Json.bool false), ("value", Json.num 5)])⟩)
      = Except.ok ⟨false, [], [], none, none⟩ := by
  constructor
  · exact (c4_envelope_failures_only 200 (Json.arr [])).1 rfl
  · exact (c4_envelope_failures_only 200
      (Json.obj [("success", Json.bool false), ("value", Json.num 5)])).2
      (false, Json.num 5) rfl
